import Mathlib

/-!
Verification of the `nvidia_allocator.py` vGPU allocator.

This file gives a shallow embedding of the allocator's pure logic:

* Python string primitives (`str.split`, `str.splitlines`, `str.strip`,
  `str.join`, `sorted`, `set`, regex `findall` for the two fixed patterns used
  by the source) are modelled as executable functions on `List Char` / `String`.
  `splitlines` is modelled with `'\n'` as the sole line separator, matching the
  newline convention of the descriptor files the program reads and writes.
* The VM descriptor store (`parse_vm_config`, serialization by the write loop
  of `assign_gpu`) is modelled over an insertion-ordered association list,
  matching Python `dict` semantics (updates in place, new keys appended).
* The device inventory scanner (`get_gpus`) is modelled over a list of device
  records carrying the raw contents of the two control files.
* The lifecycle hook handler (`main` for the `pre-start` / `post-stop` phases,
  `stop`) is modelled as a function from a filesystem oracle
  `ex : String → Bool` — "this path exists and, for a control file, can be
  opened for writing" — to a trace of write/log events plus an outcome.
  An uncaught Python exception is the `Outcome.crashed` constructor; `sys.exit`
  is `Outcome.exited`.
* `assign_gpu` is modelled as a function from the in-memory VM list to an
  outcome that records the single file write it performs (path and full
  contents), mirroring the source, which computes the target path from the
  `node` argument up front and uses it only for the final write.
-/

set_option maxRecDepth 100000

instance {ε α : Type} [DecidableEq ε] [DecidableEq α] : DecidableEq (Except ε α) := fun a b =>
  match a, b with
  | .error e, .error f => decidable_of_iff (e = f) (by simp)
  | .error _, .ok _ => isFalse (fun h => Except.noConfusion h)
  | .ok _, .error _ => isFalse (fun h => Except.noConfusion h)
  | .ok x, .ok y => decidable_of_iff (x = y) (by simp)

/-! ## Python string primitives -/

/-- Python whitespace for `str.strip()`. -/
def pyWs (c : Char) : Bool :=
  c == ' ' || c == '\t' || c == '\n' || c == '\r' || c == '\x0b' || c == '\x0c'

/-- Prepend a character to the first piece of a split result (a fresh piece
when there is none). -/
def consHead (c : Char) : List (List Char) → List (List Char)
  | [] => [[c]]
  | l :: ls => (c :: l) :: ls

/-- Python `str.split(sep)` for a one-character separator, on the character list. -/
def splitChar (sep : Char) : List Char → List (List Char)
  | [] => [[]]
  | c :: rest =>
    if c = sep then [] :: splitChar sep rest
    else consHead c (splitChar sep rest)

/-- Python `str.split(": ")`, the separator used by the descriptor line format. -/
def splitCS : List Char → List (List Char)
  | [] => [[]]
  | [c] => [[c]]
  | c :: d :: rest =>
    if c = ':' ∧ d = ' ' then [] :: splitCS rest
    else consHead c (splitCS (d :: rest))

/-- Python `str.splitlines()` with `'\n'` as the line separator. -/
def pySplitlines : List Char → List (List Char)
  | [] => []
  | c :: rest =>
    if c = '\n' then [] :: pySplitlines rest
    else consHead c (pySplitlines rest)

/-- The part of a line before the first `" : "`, i.e. `line.split(" : ")[0]`. -/
def upToSep : List Char → List Char
  | [] => []
  | [c] => [c]
  | [c, d] => [c, d]
  | c :: d :: e :: rest =>
    if c = ' ' ∧ d = ':' ∧ e = ' ' then []
    else c :: upToSep (d :: e :: rest)

/-- Python `str.strip()`. -/
def pyStripList (l : List Char) : List Char :=
  ((l.dropWhile pyWs).reverse.dropWhile pyWs).reverse

/-- Python `str.strip()` on `String`. -/
def pyStrip (s : String) : String := String.mk (pyStripList s.toList)

/-- Python `str.split(sep)` on `String` for a one-character separator. -/
def pySplit (sep : Char) (s : String) : List String :=
  (splitChar sep s.toList).map String.mk

/-- Python `line.startswith(c)` for a one-character argument. -/
def headIs (c : Char) (s : String) : Bool :=
  match s.toList with
  | [] => false
  | a :: _ => a == c

/-- Python `s.startswith(pre)`. -/
def pyStartsWith (pre s : String) : Bool := pre.toList.isPrefixOf s.toList

/-- Python `sep.join(parts)`. -/
def joinWith (sep : String) : List String → String
  | [] => ""
  | [x] => x
  | x :: y :: rest => x ++ sep ++ joinWith sep (y :: rest)

/-- Lexicographic (code-point) string order, Python `<=` on `str`. -/
def lexLe : List Char → List Char → Bool
  | [], _ => true
  | _ :: _, [] => false
  | a :: as, b :: bs => if a < b then true else if a = b then lexLe as bs else false

/-- Python `<=` on `str`. -/
def strLe (a b : String) : Bool := lexLe a.toList b.toList

/-- Insertion step of insertion sort. -/
def insertBy {α : Type} (le : α → α → Bool) (x : α) : List α → List α
  | [] => [x]
  | y :: ys => if le x y then x :: y :: ys else y :: insertBy le x ys

/-- Insertion sort; models Python `sorted` for the orders used here. -/
def sortBy {α : Type} (le : α → α → Bool) (l : List α) : List α :=
  l.foldr (insertBy le) []

/-- Python `sorted` on lists of strings. -/
def sortStrings (l : List String) : List String := sortBy strLe l

/-- Keep the first occurrence of each element (worker with seen-set). -/
def dedupAux (seen : List String) : List String → List String
  | [] => []
  | x :: xs => if seen.contains x then dedupAux seen xs else x :: dedupAux (x :: seen) xs

/-- Keep the first occurrence of each element; `sortStrings (dedup l)` models
Python `sorted(set(l))`. -/
def dedup (l : List String) : List String := dedupAux [] l

/-- Python `set.add` on a deduplicated list: append if absent. -/
def addSet (l : List String) (x : String) : List String :=
  if l.contains x then l else l ++ [x]

/-- Formatting `f'{x}'` of an optional string: Python formats `None` as `"None"`. -/
def pyOptStr : Option String → String
  | some s => s
  | none => "None"

/-! ## Regex `findall` for the two fixed patterns of the source

`re.findall` scans left to right; at each position it tries the pattern, and on
success emits the capture and resumes after the whole match (non-overlapping
matches), otherwise advances one character.  Both source patterns are a literal
followed by a greedy non-empty character-class run, with the run (plus, for the
bus-id pattern, the tail of the literal) as the capture. -/

/-- Generic scanner: literal `lit` followed by a maximal non-empty run of
characters satisfying `cls`; returns the runs.  `fuel` is instantiated with the
input length, which bounds the number of steps. -/
def scanLit (lit : List Char) (cls : Char → Bool) : Nat → List Char → List (List Char)
  | 0, _ => []
  | _ + 1, [] => []
  | fuel + 1, s@(_ :: rest) =>
    if lit.isPrefixOf s then
      let after := s.drop lit.length
      let run := after.takeWhile cls
      if run = [] then scanLit lit cls fuel rest
      else run :: scanLit lit cls fuel (after.dropWhile cls)
    else scanLit lit cls fuel rest

/-- The call `re.findall(r'nvidia-(\d+)', s)` (ASCII digits). -/
def findallNvidia (s : String) : List String :=
  (scanLit "nvidia-".toList Char.isDigit s.toList.length s.toList).map String.mk

/-- The character class `[0-9a-fA-F:.]` of the device-attachment pattern. -/
def isBusChar (c : Char) : Bool :=
  c.isDigit || ('a' ≤ c && c ≤ 'f') || ('A' ≤ c && c ≤ 'F') || c == ':' || c == '.'

/-- The call `re.findall(r'-device vfio-pci,sysfsdev=(/sys/bus/pci/devices/[0-9a-fA-F:.]+)', s)`.
The capture group starts at `/sys/bus/pci/devices/`. -/
def findallBusId (s : String) : List String :=
  (scanLit "-device vfio-pci,sysfsdev=/sys/bus/pci/devices/".toList isBusChar
      s.toList.length s.toList).map
    (fun r => "/sys/bus/pci/devices/" ++ String.mk r)

/-! ## VM descriptor store

A descriptor is Python's insertion-ordered `dict[str, str]`, modelled as an
association list: updating an existing key rewrites it in place, a new key is
appended. -/

/-- A parsed VM descriptor. -/
abbrev Config : Type := List (String × String)

/-- Lookup `d[k]` (`None` when absent). -/
def dictGet : Config → String → Option String
  | [], _ => none
  | kv :: rest, k => if kv.1 == k then some kv.2 else dictGet rest k

/-- Update `d[k] = v` on an insertion-ordered dict. -/
def dictSet : Config → String → String → Config
  | [], k, v => [(k, v)]
  | kv :: rest, k, v => if kv.1 == k then (k, v) :: rest else kv :: dictSet rest k v

/-- Worker for `parse_vm_config`: the per-line loop of the source.  Blank,
comment (`#`) and section (`[`) lines are skipped; every other line must split
on `": "` into exactly a key and a value, else Python's tuple unpacking raises
`ValueError`. -/
def parseConfigLines (d : Config) : List String → Except String Config
  | [] => .ok d
  | line :: rest =>
    if line.toList = [] || headIs '#' line || headIs '[' line then
      parseConfigLines d rest
    else
      match splitCS line.toList with
      | [k, v] => parseConfigLines (dictSet d (String.mk k) (String.mk v)) rest
      | _ => .error "ValueError"

/-- The function `parse_vm_config` applied to the text of an already-read descriptor file. -/
def parse_vm_config (text : String) : Except String Config :=
  parseConfigLines [] ((pySplitlines text.toList).map String.mk)

/-- The descriptor write loop of `assign_gpu`: one `f'{key}: {value}\n'` line
per entry, in dict order. -/
def serializeConfig : Config → String
  | [] => ""
  | (k, v) :: rest => k ++ ": " ++ v ++ "\n" ++ serializeConfig rest

/-- Worker of `parse_line_config`: split a `a=1,b=2` value on `,` then `=` (exactly two
parts each, else `ValueError`) and look up `item` (worker). -/
def parseLineAux (d : List (String × String)) : List String → Except String (List (String × String))
  | [] => .ok d
  | part :: rest =>
    match splitChar '=' part.toList with
    | [k, v] => parseLineAux (dictSet d (String.mk k) (String.mk v)) rest
    | _ => .error "ValueError"

/-- The function `parse_line_config(config_line, item)`. -/
def parse_line_config (config_line item : String) : Except String (Option String) :=
  (parseLineAux [] (pySplit ',' config_line)).map (fun d => dictGet d item)

/-- The function `parse_vgpu_type_id`: the sorted `nvidia-(\d+)` captures of `config['tags']`;
a missing `tags` key is a `KeyError`. -/
def parse_vgpu_type_id (config : Config) : Except String (List String) :=
  match dictGet config "tags" with
  | none => .error "KeyError"
  | some tg => .ok (sortStrings (findallNvidia tg))

/-- The function `parse_vgpu_bus_id`: the device-attachment captures of `config['args']`;
a missing `args` key is a `KeyError`. -/
def parse_vgpu_bus_id (config : Config) : Except String (List String) :=
  match dictGet config "args" with
  | none => .error "KeyError"
  | some ag => .ok (findallBusId ag)

/-! ## VM list (`get_vms`) -/

/-- One entry of the `VMS` list: `(vmid, node, config)`. -/
abbrev VmEntry : Type := String × String × Config

/-- Python tuple order on `(vmid, node, _)`; the config never takes part in a
comparison because no two entries share both `vmid` and `node` (one file per
node-and-id path). -/
def vmLe (a b : VmEntry) : Bool :=
  if a.1 == b.1 then strLe a.2.1 b.2.1 else strLe a.1 b.1

/-- The sort `VMS.sort()`: the vmid-then-node sorted VM list. -/
def sortVms (l : List VmEntry) : List VmEntry := sortBy vmLe l

/-! ## Allocation engine (`assign_gpu`) -/

/-- Outcome of `assign_gpu`: the early `return` on an already-attached device,
`sys.exit(1)` when the VM is not found (or its config is empty, which is falsy),
an uncaught exception, or the single descriptor-file write followed by
`sys.exit(0)`. -/
inductive AssignOutcome
  | alreadyAssigned
  | notFound
  | crashed (msg : String)
  | persisted (path : String) (content : String)
deriving DecidableEq

/-- Outcome of the node-independent part of `assign_gpu` (everything except the
target path, which the source derives from the `node` argument alone). -/
inductive CoreOutcome
  | alreadyAssigned
  | notFound
  | crashed (msg : String)
  | persistContent (content : String)
deriving DecidableEq

/-- The token `assign_gpu` checks for in the split `args`
(`f'vfio-pci,sysfsdev=/sys/bus/pci/devices/{gpu}'`). -/
def devToken (gpu : String) : String :=
  "vfio-pci,sysfsdev=/sys/bus/pci/devices/" ++ gpu

/-- The tokens `config['args'].split(' ')` when `args` is present and non-empty, else `[]`. -/
def argTokens (config : Config) : List String :=
  match dictGet config "args" with
  | some a => if a == "" then [] else pySplit ' ' a
  | none => []

/-- The `-uuid` step of `assign_gpu`: append the device token, then, if no
`-uuid` token is present, read `config['smbios1']` (`KeyError` when absent),
parse out `uuid` and append `f'-uuid {uuid}'`. -/
def assignUuidArgs (config : Config) (gpu : String) : Except String (List String) :=
  let arguments := argTokens config ++ ["-device " ++ devToken gpu]
  if arguments.contains "-uuid" then .ok arguments
  else
    match dictGet config "smbios1" with
    | none => .error "KeyError"
    | some sm =>
      match parse_line_config sm "uuid" with
      | .error e => .error e
      | .ok u => .ok (arguments ++ ["-uuid " ++ pyOptStr u])

/-- The in-memory descriptor produced by `assign_gpu` before the write:
`config['args']` is the re-joined token list, `hookscript` is self-installed
when absent or empty, and `nvidia-<type>` is unioned into the sorted tag set. -/
def assignedConfig (config : Config) (gpu_type : String) (args2 : List String) : Config :=
  let c1 := dictSet config "args" (joinWith " " args2)
  let c2 :=
    match dictGet c1 "hookscript" with
    | none => dictSet c1 "hookscript" "local:snippets/nvidia_allocator.py"
    | some h =>
      if h == "" then dictSet c1 "hookscript" "local:snippets/nvidia_allocator.py"
      else c1
  let tagsList :=
    match dictGet c2 "tags" with
    | none => []
    | some tg =>
      if tg == "" then []
      else (pySplit ';' (pyStrip tg)).filter (fun x => x ≠ "")
  dictSet c2 "tags"
    (joinWith ";" (sortStrings (dedup (tagsList ++ ["nvidia-" ++ gpu_type]))))

/-- The node-independent body of `assign_gpu`: select the first VM with the
given vmid from the list (the node plays no part in the lookup), short-circuit
when the device token is already attached, otherwise build and serialize the
updated descriptor. -/
def assignCore (vms : List VmEntry) (vmid gpu gpu_type : String) : CoreOutcome :=
  match vms.find? (fun vm => vm.1 == vmid) with
  | none => .notFound
  | some vm =>
    if vm.2.2 = [] then .notFound
    else if (argTokens vm.2.2).contains (devToken gpu) then .alreadyAssigned
    else
      match assignUuidArgs vm.2.2 gpu with
      | .error e => .crashed e
      | .ok args2 => .persistContent (serializeConfig (assignedConfig vm.2.2 gpu_type args2))

/-- The path `f'/etc/pve/nodes/{node}/qemu-server/{vmid}.conf'`. -/
def configPath (node vmid : String) : String :=
  "/etc/pve/nodes/" ++ node ++ "/qemu-server/" ++ vmid ++ ".conf"

/-- Attach the target path to the node-independent outcome. -/
def finishAssign (p : String) : CoreOutcome → AssignOutcome
  | .alreadyAssigned => .alreadyAssigned
  | .notFound => .notFound
  | .crashed e => .crashed e
  | .persistContent c => .persisted p c

/-- The function `assign_gpu(vmid, node, gpu, gpu_type)` over the in-memory VM list. -/
def assign_gpu (vms : List VmEntry) (vmid node gpu gpu_type : String) : AssignOutcome :=
  finishAssign (configPath node vmid) (assignCore vms vmid gpu gpu_type)

/-! ## Device inventory scanner (`get_gpus`) -/

/-- One candidate entry of `/sys/bus/pci/devices/`: its bus address, whether it
has an `nvidia` subdirectory, and the raw contents of the two control files. -/
structure Device where
  addr : String
  hasNvidia : Bool
  current : String
  creatable : String
deriving DecidableEq

/-- The three module-level accumulators of the scan:
`AVAILABLE_GPUS`, `ASSIGNED_GPUS` and `GPU_TYPES` (the catalog, a set modelled
as an insertion-ordered deduplicated list). -/
structure Scan where
  available : List (String × List String)
  assigned : List (String × String)
  types : List String
deriving DecidableEq

/-- The inner loop over `creatable_vgpu_types` lines: skip blank and `ID`
header lines; add each remaining line to the catalog verbatim and collect its
`split(" : ")[0].strip()` type id for the device's creatable list. -/
def scanCreatable (types : List String) : List String → List String × List String
  | [] => (types, [])
  | l :: ls =>
    if l == "" || pyStartsWith "ID" l then scanCreatable types ls
    else
      let r := scanCreatable (addSet types l) ls
      (r.1, pyStrip (String.mk (upToSep l.toList)) :: r.2)

/-- One device step of the scan: skip entries without the `nvidia` directory;
a `current_vgpu_type` other than `"0\n"` records the device as assigned and
adds the raw value to the catalog; otherwise the creatable-types file is read. -/
def scanStep (acc : Scan) (d : Device) : Scan :=
  if !d.hasNvidia then acc
  else if d.current ≠ "0\n" then
    { acc with
      assigned := acc.assigned ++ [(d.addr, d.current)]
      types := addSet acc.types d.current }
  else
    let r := scanCreatable acc.types ((pySplitlines d.creatable.toList).map String.mk)
    { acc with
      available := acc.available ++ [(d.addr, r.2)]
      types := r.1 }

/-- The scan `get_gpus()` over the device listing. -/
def get_gpus (devs : List Device) : Scan :=
  devs.foldl scanStep ⟨[], [], []⟩

/-! ## Lifecycle hook handler (`main` for hook phases, `stop`) -/

/-- An observable side effect on the host: a write of `content` to `path`, or
a line printed to stdout. -/
inductive Event
  | write (path content : String)
  | log (msg : String)
deriving DecidableEq

/-- How an invocation ends: `sys.exit(code)` (including falling off the end of
`main`, which the `__main__` guard follows with `sys.exit(0)`), or an uncaught
Python exception. -/
inductive Outcome
  | exited (code : Nat)
  | crashed (msg : String)
deriving DecidableEq

/-- The trace of events of one invocation together with its outcome. -/
structure HookResult where
  events : List Event
  outcome : Outcome
deriving DecidableEq

/-- The occupancy control file of a device path. -/
def occFile (p : String) : String := p ++ "/nvidia/current_vgpu_type"

/-- The function `stop(vgpu_path)`: write `'0'` to the occupancy control file, treating a
missing or unwritable path (`FileNotFoundError`/`PermissionError`) as already
deallocated, with an informational print. -/
def stopEvents (ex : String → Bool) (p : String) : List Event :=
  if ex (occFile p) then [.write (occFile p) "0"]
  else [.log "vGPU already de-allocated"]

/-- The first `pre-start` loop: for each requested path, in order, abort with
`sys.exit(1)` when the path does not exist, otherwise run the defensive
`stop(vgpu_path)` reset.  Returns the accumulated events and whether the loop
ran to completion. -/
def preStartValidate (ex : String → Bool) : List String → List Event × Bool
  | [] => ([], true)
  | p :: rest =>
    if ex p then
      let r := preStartValidate ex rest
      (stopEvents ex p ++ r.1, r.2)
    else
      ([.log ("Specified vGPU not found, rerun the nvidia_allocator or check the drivers: " ++ p)],
        false)

/-- The second `pre-start` loop (`for i, vgpu_path in enumerate(vgpu_paths)`):
write `vgpu_types[i % len(vgpu_types)]` into each occupancy control file; a
failing open is left to Python (uncaught exception). -/
def preActivate (ex : String → Bool) (types : List String) : Nat → List String → List Event × Option String
  | _, [] => ([], none)
  | i, p :: rest =>
    if ex (occFile p) then
      let r := preActivate ex types (i + 1) rest
      (.write (occFile p) (types.getD (i % types.length) "") :: r.1, r.2)
    else ([], some "FileNotFoundError")

/-- The `pre-start` phase: validation-and-reset loop, then the activation loop. -/
def preStartRun (ex : String → Bool) (types paths : List String) : HookResult :=
  let v := preStartValidate ex paths
  if v.2 then
    let a := preActivate ex types 0 paths
    match a.2 with
    | none => ⟨v.1 ++ a.1, .exited 0⟩
    | some m => ⟨v.1 ++ a.1, .crashed m⟩
  else ⟨v.1, .exited 1⟩

/-- The body of `main` from the point where the descriptor has been read, for the hook
phases (the `get_command` branch is modelled separately): extract the requested
types and device paths, exit 0 when either list is empty, and dispatch on the
phase; an unknown phase falls through to the final `sys.exit(0)`. -/
def mainHook (ex : String → Bool) (phase : String) (config : Config) : HookResult :=
  match parse_vgpu_type_id config with
  | .error e => ⟨[], .crashed e⟩
  | .ok vgpu_types =>
    if vgpu_types = [] then ⟨[], .exited 0⟩
    else
      match parse_vgpu_bus_id config with
      | .error e => ⟨[], .crashed e⟩
      | .ok vgpu_paths =>
        if vgpu_paths = [] then ⟨[], .exited 0⟩
        else if phase = "pre-start" then preStartRun ex vgpu_types vgpu_paths
        else if phase = "post-stop" then
          ⟨(vgpu_paths.map (stopEvents ex)).flatten, .exited 0⟩
        else ⟨[], .exited 0⟩

/-! ## `get_command` mode and `get_available_gpu` -/

/-- The runtime components of the 3-tuple returned by `get_gpus()`. -/
inductive GpusComponent
  | avail (d : List (String × List String))
  | assignedD (d : List (String × String))
  | typesS (s : List String)
deriving DecidableEq

/-- Python tuple unpacking of a runtime tuple (as its component list) into two
targets: a `ValueError` unless there are exactly two components. -/
def pyUnpack2 {α : Type} : List α → Except String (α × α)
  | [a, b] => .ok (a, b)
  | l =>
    if l.length < 2 then .error "ValueError: not enough values to unpack"
    else .error "ValueError: too many values to unpack (expected 2)"

/-- The runtime tuple returned by `get_gpus()`. -/
def getGpusTuple (devs : List Device) : List GpusComponent :=
  [.avail (get_gpus devs).available, .assignedD (get_gpus devs).assigned,
    .typesS (get_gpus devs).types]

/-- The function `get_available_gpu(vgpu_type)`.  Its first statement,
`gpus, _ = get_gpus()`, unpacks the 3-tuple returned by `get_gpus` into two
targets, which raises `ValueError: too many values to unpack (expected 2)`
unconditionally; the rest of the body (the first-match loop and the
`exit(404)` fallback) is unreachable and embedded under the match for
completeness. -/
def get_available_gpu (devs : List Device) (vgpu_type : String) : Except String String :=
  match pyUnpack2 (getGpusTuple devs) with
  | .error e => .error e
  | .ok (g, _) =>
    match g with
    | .avail gpus =>
      match gpus.find? (fun kv => kv.2.contains vgpu_type) with
      | some kv => .ok kv.1
      | none => .error "exit 404"
    | _ => .error "TypeError"

/-- The `get_command` branch of `main`.  The call site
`available_vgpu, gpu_id = get_available_gpu(vgpu_name)` additionally unpacks
the returned bus-address string into two one-character strings, a second
`ValueError` unless the string has length exactly two; both unpacking steps are
modelled, and an uncaught exception surfaces as `Outcome.crashed`. -/
def mainGetCommand (devs : List Device) (config : Config) (vmid vgpu_name : String) : HookResult :=
  match get_available_gpu devs vgpu_name with
  | .error e => ⟨[], .crashed e⟩
  | .ok gpu =>
    match gpu.toList with
    | [c1, c2] =>
      match dictGet config "smbios1" with
      | none => ⟨[], .crashed "KeyError"⟩
      | some sm =>
        match parse_line_config sm "uuid" with
        | .error e => ⟨[], .crashed e⟩
        | .ok u =>
          let available_vgpu := String.mk [c1]
          let gpu_id := String.mk [c2]
          let tags :=
            sortStrings (dedup
              ((pySplit ';' (pyStrip
                  (match dictGet config "tags" with
                   | some tg => tg
                   | none => ""))).filter (fun x => x ≠ "") ++
                ["nvidia-" ++ gpu_id]))
          ⟨[.log ("qm set " ++ vmid ++ " --hookscript local:snippets/nvidia_allocator.py"),
            .log ("qm set " ++ vmid ++ " --args \"-device vfio-pci,sysfsdev=/sys/bus/pci/devices/" ++
              available_vgpu ++ " -uuid " ++ pyOptStr u ++ "\""),
            .log ("qm set " ++ vmid ++ " --tags \"" ++ joinWith ";" tags ++ "\"")],
            .exited 0⟩
    | _ => ⟨[], .crashed "ValueError"⟩

/-! ## Lemmas about the string primitives and the dict -/

theorem consHead_append (c : Char) (L1 L2 : List (List Char)) (h : L1 ≠ []) :
    consHead c (L1 ++ L2) = consHead c L1 ++ L2 := by
  cases L1 with
  | nil => exact absurd rfl h
  | cons l ls => rfl

theorem splitChar_ne_nil (sep : Char) (l : List Char) : splitChar sep l ≠ [] := by
  induction l with
  | nil => simp [splitChar]
  | cons c rest ih =>
    simp only [splitChar]
    split
    · simp
    · cases h : splitChar sep rest <;> simp [consHead]

theorem splitChar_append_sep (sep : Char) (a b : List Char) :
    splitChar sep (a ++ sep :: b) = splitChar sep a ++ splitChar sep b := by
  induction a with
  | nil => simp [splitChar]
  | cons c a ih =>
    by_cases h : c = sep
    · simp [splitChar, h, ih]
    · simp [splitChar, h, ih, consHead_append c _ _ (splitChar_ne_nil sep a)]

theorem splitChar_no_sep (sep : Char) (l : List Char) (h : ∀ c ∈ l, ¬ c = sep) :
    splitChar sep l = [l] := by
  induction l with
  | nil => rfl
  | cons c rest ih =>
    have hc : ¬ c = sep := h c (List.mem_cons_self c rest)
    have hr := ih (fun d hd => h d (List.mem_cons_of_mem c hd))
    simp [splitChar, hc, hr, consHead]

theorem pySplitlines_line (line rest : List Char) (h : '\n' ∉ line) :
    pySplitlines (line ++ '\n' :: rest) = line :: pySplitlines rest := by
  induction line with
  | nil => simp [pySplitlines]
  | cons c cs ih =>
    have hc : ¬ c = '\n' := by
      intro hh
      subst hh
      exact h (List.mem_cons_self _ _)
    have hcs : '\n' ∉ cs := fun hm => h (List.mem_cons_of_mem c hm)
    simp [pySplitlines, hc, ih hcs, consHead]

theorem dictGet_dictSet_self (d : Config) (k v : String) :
    dictGet (dictSet d k v) k = some v := by
  induction d with
  | nil => simp [dictSet, dictGet]
  | cons kv rest ih =>
    by_cases h : kv.1 = k <;> simp [dictSet, dictGet, h, ih]

theorem dictGet_dictSet_ne (d : Config) (k k' v : String) (h : ¬ k' = k) :
    dictGet (dictSet d k' v) k = dictGet d k := by
  induction d with
  | nil => simp [dictSet, dictGet, h]
  | cons kv rest ih =>
    have h2 : ¬ k = k' := fun hh => h hh.symm
    by_cases hk : kv.1 = k'
    · simp [dictSet, dictGet, hk, h]
    · by_cases hk2 : kv.1 = k <;> simp [dictSet, dictGet, hk, hk2, h2, ih]

theorem dictSet_ne_nil (d : Config) (k v : String) : dictSet d k v ≠ [] := by
  cases d with
  | nil => simp [dictSet]
  | cons kv rest =>
    simp only [dictSet]
    split <;> simp

theorem dictSet_fresh (d : Config) (k v : String) (h : k ∉ d.map Prod.fst) :
    dictSet d k v = d ++ [(k, v)] := by
  induction d with
  | nil => rfl
  | cons kv rest ih =>
    simp only [List.map_cons, List.mem_cons] at h
    push_neg at h
    have h1 : ¬ kv.1 = k := fun hh => h.1 hh.symm
    simp [dictSet, h1, ih h.2]

/-! ## Round-trip of the descriptor store

`goodKV` is the well-formedness of one descriptor entry as a line: its
serialized line contains no newline, splits on `": "` into exactly the key and
the value, and is not mistaken for a comment or section header. -/

/-- The serialized line of a descriptor entry. -/
def kvLine (kv : String × String) : List Char :=
  kv.1.toList ++ ':' :: ' ' :: kv.2.toList

/-- Well-formedness of a descriptor entry for the round-trip. -/
def goodKV (kv : String × String) : Bool :=
  (kvLine kv).all (fun c => !(c == '\n')) &&
    (splitCS (kvLine kv) == [kv.1.toList, kv.2.toList]) &&
    !(headIs '#' (String.mk (kvLine kv))) && !(headIs '[' (String.mk (kvLine kv)))

theorem kvLine_ne_nil (kv : String × String) : kvLine kv ≠ [] := by
  unfold kvLine
  cases kv.1.toList <;> simp

theorem serializeConfig_toList (k v : String) (L : Config) :
    (serializeConfig ((k, v) :: L)).toList
      = (kvLine (k, v)) ++ '\n' :: (serializeConfig L).toList := by
  have h2 : (": " : String).data = [':', ' '] := rfl
  have h3 : ("\n" : String).data = ['\n'] := rfl
  simp [serializeConfig, kvLine, String.toList, String.data_append, h2, h3]

theorem parseConfigLines_serialize (L : Config) : ∀ d : Config,
    (∀ kv ∈ L, goodKV kv = true) → (∀ kv ∈ L, kv.1 ∉ d.map Prod.fst) →
    (L.map Prod.fst).Nodup →
    parseConfigLines d ((pySplitlines (serializeConfig L).toList).map String.mk)
      = .ok (d ++ L) := by
  induction L with
  | nil =>
    intro d _ _ _
    simp [serializeConfig, pySplitlines, parseConfigLines]
  | cons kv L ih =>
    intro d hg hf hn
    obtain ⟨k, v⟩ := kv
    have hgood := hg _ (List.mem_cons_self _ _)
    simp only [goodKV, Bool.and_eq_true, beq_iff_eq, Bool.not_eq_true',
      List.all_eq_true] at hgood
    obtain ⟨⟨⟨hA, hB⟩, hC⟩, hD⟩ := hgood
    have hnl : '\n' ∉ kvLine (k, v) := by
      intro hm
      have := hA _ hm
      simp at this
    rw [serializeConfig_toList, pySplitlines_line _ _ hnl]
    simp only [List.map_cons]
    have hline : (String.mk (kvLine (k, v))).toList = kvLine (k, v) := rfl
    simp only [parseConfigLines, hline, kvLine_ne_nil (k, v), hC, hD, hB]
    have hmkk : String.mk k.toList = k := rfl
    have hmkv : String.mk v.toList = v := rfl
    rw [hmkk, hmkv]
    simp only [List.nodup_cons, List.map_cons] at hn
    have hfresh : k ∉ d.map Prod.fst := hf _ (List.mem_cons_self _ _)
    rw [dictSet_fresh d k v hfresh]
    have hf' : ∀ kv' ∈ L, kv'.1 ∉ (d ++ [(k, v)]).map Prod.fst := by
      intro kv' hm
      simp only [List.map_append, List.mem_append, List.map_cons, List.map_nil,
        List.mem_singleton]
      push_neg
      refine ⟨fun hh => hf kv' (List.mem_cons_of_mem _ hm) hh, fun hh => ?_⟩
      exact hn.1 (hh ▸ List.mem_map_of_mem Prod.fst hm)
    rw [ih (d ++ [(k, v)]) (fun kv' hm => hg kv' (List.mem_cons_of_mem _ hm)) hf' hn.2]
    simp

/-- Round-trip on a well-formed, duplicate-free descriptor. -/
theorem parse_serialize_good (L : Config) (h : ∀ kv ∈ L, goodKV kv = true)
    (hnd : (L.map Prod.fst).Nodup) :
    parse_vm_config (serializeConfig L) = .ok L := by
  have := parseConfigLines_serialize L [] h (by simp) hnd
  simpa [parse_vm_config] using this

/-- C5: the claim as stated fails: the text `"# c\nname: x\n"` is accepted by
the parser (the comment line is silently skipped) and its single key is already
in canonical (sorted) order, yet serializing the parse drops the comment line,
so the round-trip is not byte-identical. -/
theorem c5_counterexample :
    parse_vm_config "# c\nname: x\n" = .ok [("name", "x")] ∧
    sortStrings (([("name", "x")] : Config).map Prod.fst) = [("name", "x")].map Prod.fst ∧
    serializeConfig [("name", "x")] ≠ "# c\nname: x\n" := by
  exact ⟨by decide, by decide, by decide⟩

/-- C5 (amended): serialize–after–parse reproduces the descriptor byte-for-byte
for every descriptor text made solely of well-formed `key: value` lines with
pairwise-distinct keys (no blank, comment or section lines, no newline or
`": "` inside a serialized line beyond its single separator); such texts are
exactly the serializations of well-formed duplicate-free mappings, and key
order as read is preserved on write. -/
theorem c5_roundtrip_canonical (L : Config) (h : ∀ kv ∈ L, goodKV kv = true)
    (hnd : (L.map Prod.fst).Nodup) :
    parse_vm_config (serializeConfig L) = .ok L ∧
    (parse_vm_config (serializeConfig L)).map serializeConfig = .ok (serializeConfig L) := by
  have hp := parse_serialize_good L h hnd
  exact ⟨hp, by rw [hp]; rfl⟩

/-- C5 witness: the amended round-trip at a concrete two-key descriptor. -/
theorem c5_witness :
    parse_vm_config (serializeConfig [("name", "test"), ("smbios1", "uuid=1234")])
      = .ok [("name", "test"), ("smbios1", "uuid=1234")] :=
  (c5_roundtrip_canonical [("name", "test"), ("smbios1", "uuid=1234")]
    (by decide) (by decide)).1

/-! ## Lemmas for the idempotence of `assign_gpu` -/

theorem toList_length_le_joinWith (sep x : String) (l : List String) (h : x ∈ l) :
    x.toList.length ≤ (joinWith sep l).toList.length := by
  induction l with
  | nil => cases h
  | cons y ys ih =>
    cases ys with
    | nil =>
      rcases List.mem_singleton.mp h with rfl
      exact Nat.le_refl _
    | cons z zs =>
      rcases List.mem_cons.mp h with rfl | hm
      · simp only [joinWith, String.toList, String.data_append, List.length_append]
        omega
      · have hle := ih hm
        simp only [String.toList] at hle
        simp only [joinWith, String.toList, String.data_append, List.length_append]
        omega

theorem splitChar_joinWith_space (l : List String) (h : l ≠ []) :
    splitChar ' ' (joinWith " " l).toList
      = (l.map (fun x => splitChar ' ' x.toList)).flatten := by
  induction l with
  | nil => exact absurd rfl h
  | cons x ys ih =>
    cases ys with
    | nil => simp [joinWith]
    | cons y zs =>
      have hsp : (" " : String).data = [' '] := rfl
      have hdata : (x ++ " " ++ joinWith " " (y :: zs)).toList
          = x.toList ++ ' ' :: (joinWith " " (y :: zs)).toList := by
        simp [String.toList, String.data_append, hsp]
      simp only [joinWith, hdata, splitChar_append_sep, ih (by simp), List.map_cons,
        List.flatten_cons]

theorem device_token_toList (gpu : String) :
    ("-device " ++ devToken gpu).toList = "-device".toList ++ ' ' :: (devToken gpu).toList := by
  have h1 : ("-device " : String).data = "-device".data ++ [' '] := rfl
  simp [devToken, String.toList, String.data_append, h1]

theorem splitChar_device_token (gpu : String) (hg : ∀ c ∈ gpu.toList, ¬ c = ' ') :
    splitChar ' ' ("-device " ++ devToken gpu).toList
      = ["-device".toList, (devToken gpu).toList] := by
  rw [device_token_toList, splitChar_append_sep]
  have h2 : splitChar ' ' "-device".toList = ["-device".toList] := by decide
  have h3 : splitChar ' ' (devToken gpu).toList = [(devToken gpu).toList] := by
    apply splitChar_no_sep
    intro c hc
    have hdt : (devToken gpu).toList
        = "vfio-pci,sysfsdev=/sys/bus/pci/devices/".toList ++ gpu.toList := by
      simp [devToken, String.toList, String.data_append]
    rw [hdt] at hc
    rcases List.mem_append.mp hc with hcl | hcl
    · intro he
      subst he
      revert hcl
      decide
    · exact hg c hcl
  rw [h2, h3]
  rfl

theorem assignedConfig_ne_nil (config : Config) (t : String) (args2 : List String) :
    assignedConfig config t args2 ≠ [] := by
  simp only [assignedConfig]
  exact dictSet_ne_nil _ _ _

theorem dictGet_assignedConfig_args (config : Config) (t : String) (args2 : List String) :
    dictGet (assignedConfig config t args2) "args" = some (joinWith " " args2) := by
  simp only [assignedConfig]
  rw [dictGet_dictSet_ne _ _ _ _ (by decide)]
  split
  · rw [dictGet_dictSet_ne _ _ _ _ (by decide), dictGet_dictSet_self]
  · split
    · rw [dictGet_dictSet_ne _ _ _ _ (by decide), dictGet_dictSet_self]
    · rw [dictGet_dictSet_self]

theorem mem_device_assignUuidArgs (config : Config) (gpu : String) (args2 : List String)
    (hu : assignUuidArgs config gpu = .ok args2) :
    ("-device " ++ devToken gpu) ∈ args2 := by
  simp only [assignUuidArgs] at hu
  split at hu
  · rw [Except.ok.injEq] at hu
    subst hu
    simp
  · split at hu
    · exact Except.noConfusion hu
    · split at hu
      · exact Except.noConfusion hu
      · rw [Except.ok.injEq] at hu
        subst hu
        simp

theorem argTokens_assignedConfig_contains (config : Config) (t gpu : String)
    (args2 : List String) (hg : ∀ c ∈ gpu.toList, ¬ c = ' ')
    (hmem : ("-device " ++ devToken gpu) ∈ args2) :
    devToken gpu ∈ argTokens (assignedConfig config t args2) := by
  have hne2 : args2 ≠ [] := by
    rintro rfl
    cases hmem
  have hjoin_ne : ¬ joinWith " " args2 = "" := by
    intro hh
    have hlen := toList_length_le_joinWith " " _ args2 hmem
    rw [hh, device_token_toList] at hlen
    simp at hlen
  unfold argTokens
  rw [dictGet_assignedConfig_args]
  simp only [beq_iff_eq, hjoin_ne, if_false]
  unfold pySplit
  rw [splitChar_joinWith_space args2 hne2]
  have hin : (devToken gpu).toList ∈ (args2.map (fun x => splitChar ' ' x.toList)).flatten := by
    rw [List.mem_flatten]
    refine ⟨splitChar ' ' ("-device " ++ devToken gpu).toList, List.mem_map_of_mem _ hmem, ?_⟩
    rw [splitChar_device_token gpu hg]
    simp
  exact List.mem_map_of_mem String.mk hin

/-- C4: assignment is idempotent.  First part: whenever the selected VM's
`args` already contain the device-attachment token, `assign_gpu` returns the
already-assigned outcome and performs no write.  Second part: a successful
first call persists exactly the serialized updated descriptor; re-parsing that
file yields the updated descriptor back (for well-formed, duplicate-free
results), and a second call on it short-circuits to the already-assigned
outcome with no write — so the descriptor file is byte-identical after the
second call. -/
theorem c4_assign_idempotent :
    (∀ (vms : List VmEntry) (vmid node gpu t : String) (vm : VmEntry),
      vms.find? (fun v => v.1 == vmid) = some vm → ¬ vm.2.2 = [] →
      (argTokens vm.2.2).contains (devToken gpu) = true →
      assign_gpu vms vmid node gpu t = .alreadyAssigned) ∧
    (∀ (config : Config) (vmid node gpu t : String) (args2 : List String),
      assignUuidArgs config gpu = .ok args2 →
      ¬ config = [] →
      (argTokens config).contains (devToken gpu) = false →
      (∀ c ∈ gpu.toList, ¬ c = ' ') →
      (∀ kv ∈ assignedConfig config t args2, goodKV kv = true) →
      ((assignedConfig config t args2).map Prod.fst).Nodup →
      assign_gpu [(vmid, node, config)] vmid node gpu t
          = .persisted (configPath node vmid)
              (serializeConfig (assignedConfig config t args2)) ∧
        parse_vm_config (serializeConfig (assignedConfig config t args2))
          = .ok (assignedConfig config t args2) ∧
        assign_gpu [(vmid, node, assignedConfig config t args2)] vmid node gpu t
          = .alreadyAssigned) := by
  constructor
  · intro vms vmid node gpu t vm hf hne hc
    have hc2 : devToken gpu ∈ argTokens vm.2.2 := by simpa using hc
    simp [assign_gpu, assignCore, hf, hne, hc2, finishAssign]
  · intro config vmid node gpu t args2 hu hne hnc hg hwf hnd
    have hfind : ([(vmid, node, config)] : List VmEntry).find? (fun v => v.1 == vmid)
        = some (vmid, node, config) := by simp [List.find?]
    have hnc2 : devToken gpu ∉ argTokens config := by simpa using hnc
    refine ⟨?_, parse_serialize_good _ hwf hnd, ?_⟩
    · simp [assign_gpu, assignCore, hfind, hne, hnc2, hu, finishAssign]
    · have hfind2 : ([(vmid, node, assignedConfig config t args2)] : List VmEntry).find?
          (fun v => v.1 == vmid) = some (vmid, node, assignedConfig config t args2) := by
        simp [List.find?]
      have hmem := mem_device_assignUuidArgs config gpu args2 hu
      have hcont : devToken gpu ∈ argTokens (assignedConfig config t args2) :=
        argTokens_assignedConfig_contains config t gpu args2 hg hmem
      simp [assign_gpu, assignCore, hfind2, assignedConfig_ne_nil config t args2, hcont,
        finishAssign]

/-- C4 witness: both parts at concrete inputs; the first call persists the
expected descriptor, the re-parse returns it, and the second call
short-circuits. -/
theorem c4_witness :
    assign_gpu [("101", "pve1", [("smbios1", "uuid=1234")])] "101" "pve1" "0000:02:00.0" "64"
        = .persisted (configPath "pve1" "101")
            (serializeConfig (assignedConfig [("smbios1", "uuid=1234")] "64"
              ["-device " ++ devToken "0000:02:00.0", "-uuid 1234"])) ∧
      parse_vm_config (serializeConfig (assignedConfig [("smbios1", "uuid=1234")] "64"
            ["-device " ++ devToken "0000:02:00.0", "-uuid 1234"]))
        = .ok (assignedConfig [("smbios1", "uuid=1234")] "64"
            ["-device " ++ devToken "0000:02:00.0", "-uuid 1234"]) ∧
      assign_gpu
          [("101", "pve1",
            assignedConfig [("smbios1", "uuid=1234")] "64"
              ["-device " ++ devToken "0000:02:00.0", "-uuid 1234"])]
          "101" "pve1" "0000:02:00.0" "64"
        = .alreadyAssigned :=
  c4_assign_idempotent.2 [("smbios1", "uuid=1234")] "101" "pve1" "0000:02:00.0" "64"
    ["-device " ++ devToken "0000:02:00.0", "-uuid 1234"]
    (by decide) (by decide) (by decide) (by decide) (by decide) (by decide)

/-- C9: the manual-assignment scenario: device `0000:02:00.0`, type `64`, VM
`101` whose descriptor has `smbios1: uuid=1234` and no prior `args`, `tags` or
`hookscript`.  The persisted descriptor carries exactly the claimed `args` and
`tags` values and registers the system's own hook script path. -/
theorem c9_manual_assignment_scenario :
    assign_gpu [("101", "pve1", [("smbios1", "uuid=1234")])] "101" "pve1" "0000:02:00.0" "64"
      = .persisted "/etc/pve/nodes/pve1/qemu-server/101.conf"
          "smbios1: uuid=1234\nargs: -device vfio-pci,sysfsdev=/sys/bus/pci/devices/0000:02:00.0 -uuid 1234\nhookscript: local:snippets/nvidia_allocator.py\ntags: nvidia-64\n" := by
  decide

/-! ## Node-independence of the `assign_gpu` lookup -/

/-- Replace the target path of a persisted outcome; identity on the others. -/
def retarget (p : String) : AssignOutcome → AssignOutcome
  | .persisted _ c => .persisted p c
  | o => o

theorem find?_append_none {α : Type} (p : α → Bool) (l1 l2 : List α)
    (h : l1.find? p = none) : (l1 ++ l2).find? p = l2.find? p := by
  induction l1 with
  | nil => rfl
  | cons x xs ih =>
    cases hp : p x with
    | true => simp [List.find?, hp] at h
    | false =>
      simp only [List.cons_append, List.find?, hp] at h ⊢
      exact ih h

theorem assign_gpu_retarget (vms : List VmEntry) (vmid n1 n2 gpu t : String) :
    assign_gpu vms vmid n2 gpu t = retarget (configPath n2 vmid) (assign_gpu vms vmid n1 gpu t) := by
  unfold assign_gpu
  cases assignCore vms vmid gpu t <;> rfl

theorem assign_gpu_first_match (pre post : List VmEntry) (e : VmEntry)
    (vmid n gpu t : String) (hpre : ∀ x ∈ pre, ¬ x.1 = vmid) (he : e.1 = vmid) :
    assign_gpu (pre ++ e :: post) vmid n gpu t = assign_gpu [e] vmid n gpu t := by
  unfold assign_gpu assignCore
  have h1 : pre.find? (fun v => v.1 == vmid) = none := by
    rw [List.find?_eq_none]
    intro x hx
    simp [hpre x hx]
  rw [find?_append_none _ _ _ h1]
  have h2 : (e :: post).find? (fun v => v.1 == vmid) = some e := by
    simp [List.find?, he]
  have h3 : ([e] : List VmEntry).find? (fun v => v.1 == vmid) = some e := by
    simp [List.find?, he]
  rw [h2, h3]

/-- C10: `assign_gpu` locates the descriptor by vmid alone.  First part: the
`node` argument only retargets the persisted path, never the selected config or
the written contents.  Second part: the lookup takes the first list entry whose
vmid matches, ignoring its node.  Third part: with the same vmid under two
nodes in the sorted VM list, a call naming the second node persists the
descriptor selected from the first node's entry to the second node's path. -/
theorem c10_lookup_by_vmid :
    (∀ (vms : List VmEntry) (vmid n1 n2 gpu t : String),
      assign_gpu vms vmid n2 gpu t
        = retarget (configPath n2 vmid) (assign_gpu vms vmid n1 gpu t)) ∧
    (∀ (pre post : List VmEntry) (e : VmEntry) (vmid n gpu t : String),
      (∀ x ∈ pre, ¬ x.1 = vmid) → e.1 = vmid →
      assign_gpu (pre ++ e :: post) vmid n gpu t = assign_gpu [e] vmid n gpu t) ∧
    (∀ (vmid nA nB gpu t : String) (cfgA cfgB : Config),
      strLe nB nA = false →
      assign_gpu (sortVms [(vmid, nB, cfgB), (vmid, nA, cfgA)]) vmid nB gpu t
        = retarget (configPath nB vmid) (assign_gpu [(vmid, nA, cfgA)] vmid nA gpu t)) := by
  refine ⟨assign_gpu_retarget, assign_gpu_first_match, ?_⟩
  intro vmid nA nB gpu t cfgA cfgB hAB
  have hsort : sortVms [(vmid, nB, cfgB), (vmid, nA, cfgA)]
      = [(vmid, nA, cfgA), (vmid, nB, cfgB)] := by
    simp [sortVms, sortBy, insertBy, vmLe, hAB]
  rw [hsort]
  have hfm := assign_gpu_first_match [] [(vmid, nB, cfgB)] (vmid, nA, cfgA) vmid nB gpu t
    (by simp) rfl
  rw [List.nil_append] at hfm
  rw [hfm]
  exact assign_gpu_retarget [(vmid, nA, cfgA)] vmid nA nB gpu t

/-- C10 witness: the third part at concrete inputs — vmid `101` exists under
nodes `a` and `b`; calling with node `b` persists the config found under `a`
(the sorted-first match) to node `b`'s path. -/
theorem c10_witness :
    assign_gpu (sortVms [("101", "b", [("smbios1", "uuid=2")]), ("101", "a", [("smbios1", "uuid=1")])])
        "101" "b" "0000:02:00.0" "64"
      = retarget (configPath "b" "101")
          (assign_gpu [("101", "a", [("smbios1", "uuid=1")])] "101" "a" "0000:02:00.0" "64") :=
  c10_lookup_by_vmid.2.2 "101" "a" "b" "0000:02:00.0" "64"
    [("smbios1", "uuid=1")] [("smbios1", "uuid=2")] (by decide)

/-! ## Lemmas about the hook phases -/

theorem preStartValidate_all_ok (ex : String → Bool) (paths : List String)
    (h : ∀ p ∈ paths, ex p = true ∧ ex (occFile p) = true) :
    preStartValidate ex paths = (paths.map (fun p => Event.write (occFile p) "0"), true) := by
  induction paths with
  | nil => rfl
  | cons p rest ih =>
    have hp := h p (List.mem_cons_self _ _)
    have hr := ih (fun q hq => h q (List.mem_cons_of_mem _ hq))
    simp [preStartValidate, hp.1, stopEvents, hp.2, hr]

theorem preStartValidate_fail (ex : String → Bool) (paths : List String)
    (h : ∃ p ∈ paths, ex p = false) : (preStartValidate ex paths).2 = false := by
  induction paths with
  | nil => simp at h
  | cons p rest ih =>
    rcases h with ⟨q, hq, hqf⟩
    rcases List.mem_cons.mp hq with rfl | hm
    · simp [preStartValidate, hqf]
    · cases hp : ex p with
      | true =>
        simp only [preStartValidate, hp, if_true]
        exact ih ⟨q, hm, hqf⟩
      | false => simp [preStartValidate, hp]

theorem preStartValidate_writes_zero (ex : String → Bool) (paths : List String) :
    ∀ e ∈ (preStartValidate ex paths).1, ∀ pa c, e = Event.write pa c → c = "0" := by
  induction paths with
  | nil =>
    intro e he
    simp [preStartValidate] at he
  | cons p rest ih =>
    intro e he pa c hec
    cases hp : ex p with
    | true =>
      simp only [preStartValidate, hp, if_true, List.mem_append] at he
      rcases he with h1 | h2
      · cases ho : ex (occFile p) with
        | true =>
          simp [stopEvents, ho] at h1
          rw [h1] at hec
          injection hec with h3 h4
          exact h4.symm
        | false =>
          simp [stopEvents, ho] at h1
          rw [h1] at hec
          exact Event.noConfusion hec
      · exact ih e h2 pa c hec
    | false =>
      simp only [preStartValidate, hp, Bool.false_eq_true, if_false,
        List.mem_singleton] at he
      rw [he] at hec
      exact Event.noConfusion hec

/-- The activation writes of `pre-start` starting at index `i`. -/
def activationWrites (types : List String) : Nat → List String → List Event
  | _, [] => []
  | i, p :: rest =>
    .write (occFile p) (types.getD (i % types.length) "") :: activationWrites types (i + 1) rest

theorem preActivate_all_ok (ex : String → Bool) (types paths : List String)
    (h : ∀ p ∈ paths, ex (occFile p) = true) :
    ∀ i, preActivate ex types i paths = (activationWrites types i paths, none) := by
  induction paths with
  | nil => intro i; rfl
  | cons p rest ih =>
    intro i
    have hp := h p (List.mem_cons_self _ _)
    have hr := ih (fun q hq => h q (List.mem_cons_of_mem _ hq)) (i + 1)
    simp [preActivate, hp, hr, activationWrites]

theorem activationWrites_eq (types paths : List String) :
    ∀ i, activationWrites types i paths
      = (List.range paths.length).map
          (fun j => Event.write (occFile (paths.getD j ""))
            (types.getD ((i + j) % types.length) "")) := by
  induction paths with
  | nil => intro i; rfl
  | cons p rest ih =>
    intro i
    simp only [activationWrites, List.length_cons, List.range_succ_eq_map, List.map_cons,
      List.map_map, ih (i + 1), List.cons.injEq]
    constructor
    · simp
    · apply List.map_congr_left
      intro j hj
      simp only [Function.comp_apply, List.getD_cons_succ]
      have harith : i + 1 + j = i + (j + 1) := by omega
      rw [harith]

theorem preStartRun_all_ok (ex : String → Bool) (types paths : List String)
    (hex : ∀ p ∈ paths, ex p = true ∧ ex (occFile p) = true) :
    preStartRun ex types paths
      = ⟨paths.map (fun p => Event.write (occFile p) "0")
          ++ activationWrites types 0 paths, .exited 0⟩ := by
  have hv := preStartValidate_all_ok ex paths hex
  have ha := preActivate_all_ok ex types paths (fun p hp => (hex p hp).2) 0
  simp [preStartRun, hv, ha]

/-- C3: round-robin activation.  With all requested device paths present,
`pre-start` performs the defensive resets in request order and then writes
`types[i mod M]` into the occupancy control file of the `i`-th requested
device, in request order. -/
theorem c3_round_robin_activation (ex : String → Bool) (cfg : Config) (ts ps : List String)
    (hts : parse_vgpu_type_id cfg = .ok ts) (hps : parse_vgpu_bus_id cfg = .ok ps)
    (htne : ¬ ts = []) (hpne : ¬ ps = [])
    (hex : ∀ p ∈ ps, ex p = true ∧ ex (occFile p) = true) :
    mainHook ex "pre-start" cfg
      = ⟨ps.map (fun p => Event.write (occFile p) "0")
          ++ (List.range ps.length).map
              (fun j => Event.write (occFile (ps.getD j "")) (ts.getD (j % ts.length) "")),
        .exited 0⟩ := by
  have hrun := preStartRun_all_ok ex ts ps hex
  have hw := activationWrites_eq ts ps 0
  simp only [Nat.zero_add] at hw
  simp [mainHook, hts, hps, htne, hpne, hrun, hw]

/-- C3 witness: three devices and two types `["63","64"]` (the tag list sorted)
produce activation writes `63, 64, 63` after the three resets. -/
theorem c3_witness :
    mainHook (fun _ => true) "pre-start"
      [("tags", "nvidia-64;nvidia-63"),
       ("args", "-device vfio-pci,sysfsdev=/sys/bus/pci/devices/0000:01:00.0 -device vfio-pci,sysfsdev=/sys/bus/pci/devices/0000:02:00.0 -device vfio-pci,sysfsdev=/sys/bus/pci/devices/0000:03:00.0")]
      = ⟨(["/sys/bus/pci/devices/0000:01:00.0", "/sys/bus/pci/devices/0000:02:00.0",
          "/sys/bus/pci/devices/0000:03:00.0"].map
            (fun p => Event.write (occFile p) "0"))
          ++ (List.range 3).map
              (fun j => Event.write
                (occFile (["/sys/bus/pci/devices/0000:01:00.0",
                  "/sys/bus/pci/devices/0000:02:00.0",
                  "/sys/bus/pci/devices/0000:03:00.0"].getD j ""))
                ((["63", "64"] : List String).getD (j % 2) "")),
        .exited 0⟩ :=
  c3_round_robin_activation (fun _ => true) _ ["63", "64"]
    ["/sys/bus/pci/devices/0000:01:00.0", "/sys/bus/pci/devices/0000:02:00.0",
      "/sys/bus/pci/devices/0000:03:00.0"]
    (by decide) (by decide) (by decide) (by decide) (by decide)

/-- C1 concrete scenario: the filesystem oracle under which only device 2 of
the three requested devices is missing. -/
def exC1 : String → Bool := fun p => !(p == "/sys/bus/pci/devices/0000:02:00.0")

/-- C1 concrete scenario: a descriptor requesting one type and three devices. -/
def cfgC1 : Config :=
  [("tags", "nvidia-63"),
   ("args", "-device vfio-pci,sysfsdev=/sys/bus/pci/devices/0000:01:00.0 -device vfio-pci,sysfsdev=/sys/bus/pci/devices/0000:02:00.0 -device vfio-pci,sysfsdev=/sys/bus/pci/devices/0000:03:00.0")]

/-- C1: the claim as stated fails: with device 2 of 3 missing, `pre-start`
exits fatally, but it has already written the sentinel `'0'` to device 1's
occupancy control file — the defensive reset runs inside the validation loop,
so validation does not complete for all devices before the first mutation. -/
theorem c1_counterexample :
    (mainHook exC1 "pre-start" cfgC1).outcome = .exited 1 ∧
    exC1 "/sys/bus/pci/devices/0000:02:00.0" = false ∧
    Event.write "/sys/bus/pci/devices/0000:01:00.0/nvidia/current_vgpu_type" "0"
      ∈ (mainHook exC1 "pre-start" cfgC1).events := by
  exact ⟨by decide, by decide, by decide⟩

/-- C1 (amended): if any requested device path is missing, `pre-start` exits
with a fatal error having performed zero activation writes — every write in
its trace is a defensive reset of the sentinel `'0'` (to devices preceding the
first missing one); no type id is written to any device. -/
theorem c1_pre_start_missing_device (ex : String → Bool) (cfg : Config) (ts ps : List String)
    (hts : parse_vgpu_type_id cfg = .ok ts) (hps : parse_vgpu_bus_id cfg = .ok ps)
    (htne : ¬ ts = []) (hpne : ¬ ps = [])
    (hmiss : ∃ p ∈ ps, ex p = false) :
    (mainHook ex "pre-start" cfg).outcome = .exited 1 ∧
    ∀ e ∈ (mainHook ex "pre-start" cfg).events, ∀ pa c, e = Event.write pa c → c = "0" := by
  have hv := preStartValidate_fail ex ps hmiss
  have hm : mainHook ex "pre-start" cfg = ⟨(preStartValidate ex ps).1, .exited 1⟩ := by
    simp [mainHook, hts, hps, htne, hpne, preStartRun, hv]
  rw [hm]
  exact ⟨rfl, preStartValidate_writes_zero ex ps⟩

/-- C1 witness: the amended guarantee at the concrete scenario of the
counterexample. -/
theorem c1_witness :
    (mainHook exC1 "pre-start" cfgC1).outcome = .exited 1 ∧
    ∀ e ∈ (mainHook exC1 "pre-start" cfgC1).events, ∀ pa c, e = Event.write pa c → c = "0" :=
  c1_pre_start_missing_device exC1 cfgC1 ["63"]
    ["/sys/bus/pci/devices/0000:01:00.0", "/sys/bus/pci/devices/0000:02:00.0",
      "/sys/bus/pci/devices/0000:03:00.0"]
    (by decide) (by decide) (by decide) (by decide)
    ⟨"/sys/bus/pci/devices/0000:02:00.0", by decide, by decide⟩

/-- C6: `post-stop` writes the unoccupied sentinel to every requested device
whose occupancy file can be opened, logs the informational message for every
one that cannot (missing or inaccessible), and exits 0 either way. -/
theorem c6_post_stop_tolerant (ex : String → Bool) (cfg : Config) (ts ps : List String)
    (hts : parse_vgpu_type_id cfg = .ok ts) (hps : parse_vgpu_bus_id cfg = .ok ps)
    (htne : ¬ ts = []) (hpne : ¬ ps = []) :
    (mainHook ex "post-stop" cfg).outcome = .exited 0 ∧
    ∀ p ∈ ps,
      (ex (occFile p) = true →
        Event.write (occFile p) "0" ∈ (mainHook ex "post-stop" cfg).events) ∧
      (ex (occFile p) = false →
        Event.log "vGPU already de-allocated" ∈ (mainHook ex "post-stop" cfg).events) := by
  have hm : mainHook ex "post-stop" cfg = ⟨(ps.map (stopEvents ex)).flatten, .exited 0⟩ := by
    simp [mainHook, hts, hps, htne, hpne]
  rw [hm]
  refine ⟨rfl, ?_⟩
  intro p hp
  constructor
  · intro ht
    rw [List.mem_flatten]
    exact ⟨stopEvents ex p, List.mem_map_of_mem _ hp, by simp [stopEvents, ht]⟩
  · intro hf
    rw [List.mem_flatten]
    exact ⟨stopEvents ex p, List.mem_map_of_mem _ hp, by simp [stopEvents, hf]⟩

/-- C6 concrete scenario: only the first device's occupancy file is writable. -/
def exC6 : String → Bool :=
  fun p => p == "/sys/bus/pci/devices/0000:01:00.0/nvidia/current_vgpu_type"

/-- C6 witness: `post-stop` with one present and one missing device exits 0,
deactivates the present one and logs the missing one. -/
theorem c6_witness :
    (mainHook exC6 "post-stop"
        [("tags", "nvidia-63"),
         ("args", "-device vfio-pci,sysfsdev=/sys/bus/pci/devices/0000:01:00.0 -device vfio-pci,sysfsdev=/sys/bus/pci/devices/0000:02:00.0")]).outcome
      = .exited 0 ∧
    ∀ p ∈ ["/sys/bus/pci/devices/0000:01:00.0", "/sys/bus/pci/devices/0000:02:00.0"],
      (exC6 (occFile p) = true →
        Event.write (occFile p) "0" ∈ (mainHook exC6 "post-stop"
          [("tags", "nvidia-63"),
           ("args", "-device vfio-pci,sysfsdev=/sys/bus/pci/devices/0000:01:00.0 -device vfio-pci,sysfsdev=/sys/bus/pci/devices/0000:02:00.0")]).events) ∧
      (exC6 (occFile p) = false →
        Event.log "vGPU already de-allocated" ∈ (mainHook exC6 "post-stop"
          [("tags", "nvidia-63"),
           ("args", "-device vfio-pci,sysfsdev=/sys/bus/pci/devices/0000:01:00.0 -device vfio-pci,sysfsdev=/sys/bus/pci/devices/0000:02:00.0")]).events) :=
  c6_post_stop_tolerant exC6 _ ["63"]
    ["/sys/bus/pci/devices/0000:01:00.0", "/sys/bus/pci/devices/0000:02:00.0"]
    (by decide) (by decide) (by decide) (by decide)

/-- C7: when the requested type list is empty, or the requested device path
list is empty, the handler exits 0 with no device reads or writes, for any
phase reaching the common preamble. -/
theorem c7_empty_request_noop (ex : String → Bool) (phase : String) (cfg : Config)
    (ts : List String) (hts : parse_vgpu_type_id cfg = .ok ts)
    (h : ts = [] ∨ ∃ ag, dictGet cfg "args" = some ag ∧ findallBusId ag = []) :
    mainHook ex phase cfg = ⟨[], .exited 0⟩ := by
  rcases h with rfl | ⟨ag, hag, hbus⟩
  · simp [mainHook, hts]
  · by_cases hts0 : ts = []
    · subst hts0
      simp [mainHook, hts]
    · have hps : parse_vgpu_bus_id cfg = .ok [] := by
        simp [parse_vgpu_bus_id, hag, hbus]
      simp [mainHook, hts, hts0, hps]

/-- C7 witness: a descriptor whose tags carry no `nvidia-<digits>` label is a
successful no-op for `pre-start`. -/
theorem c7_witness :
    mainHook (fun _ => true) "pre-start" [("tags", "gpu"), ("args", "-foo")]
      = ⟨[], .exited 0⟩ :=
  c7_empty_request_noop (fun _ => true) "pre-start" _ [] (by decide) (Or.inl rfl)

/-- C2: the `get_command` branch never reaches its prints: the first statement
of `get_available_gpu`, `gpus, _ = get_gpus()`, unpacks the 3-tuple returned by
`get_gpus` into two targets and raises
`ValueError: too many values to unpack (expected 2)` on every input, so the
handler crashes with no output instead of printing the three `qm set` commands
and exiting 0. -/
theorem c2_get_command_crashes (devs : List Device) (config : Config)
    (vmid vgpu_name : String) :
    mainGetCommand devs config vmid vgpu_name
      = ⟨[], .crashed "ValueError: too many values to unpack (expected 2)"⟩ := rfl

/-! ## The catalog contents of a scan (C8) -/

theorem mem_addSet (l : List String) (x y : String) : x ∈ addSet l y ↔ x ∈ l ∨ x = y := by
  unfold addSet
  by_cases hc : y ∈ l
  · rw [if_pos (by simpa using hc)]
    constructor
    · exact Or.inl
    · rintro (h | rfl)
      · exact h
      · exact hc
  · rw [if_neg (by simpa using hc)]
    simp

/-- The creatable-types lines the scan keeps: nonempty and not an `ID` header. -/
def keptLines : List String → List String
  | [] => []
  | l :: ls => if l == "" || pyStartsWith "ID" l then keptLines ls else l :: keptLines ls

/-- The devices a scan records as free: nvidia marker present and occupancy
file holding the sentinel `"0\n"`. -/
def freeDevs : List Device → List Device
  | [] => []
  | d :: ds => if d.hasNvidia && d.current == "0\n" then d :: freeDevs ds else freeDevs ds

theorem scanCreatable_snd (types ls : List String) :
    (scanCreatable types ls).2
      = (keptLines ls).map (fun l => pyStrip (String.mk (upToSep l.toList))) := by
  induction ls generalizing types with
  | nil => rfl
  | cons l ls ih =>
    cases hk : (l == "" || pyStartsWith "ID" l) with
    | true => simp [scanCreatable, keptLines, hk, ih]
    | false => simp [scanCreatable, keptLines, hk, ih]

theorem scanCreatable_fst_mem (types ls : List String) (x : String) :
    x ∈ (scanCreatable types ls).1 ↔ x ∈ types ∨ x ∈ keptLines ls := by
  induction ls generalizing types with
  | nil => simp [scanCreatable, keptLines]
  | cons l ls ih =>
    cases hk : (l == "" || pyStartsWith "ID" l) with
    | true => simp [scanCreatable, keptLines, hk, ih]
    | false =>
      simp only [scanCreatable, keptLines, hk, Bool.false_eq_true, if_false]
      rw [ih]
      simp [mem_addSet, or_assoc]

theorem scanStep_skip (acc : Scan) (d : Device) (h : d.hasNvidia = false) :
    scanStep acc d = acc := by
  simp [scanStep, h]

theorem scanStep_occupied (acc : Scan) (d : Device) (hn : d.hasNvidia = true)
    (hc : ¬ d.current = "0\n") :
    scanStep acc d = { acc with
      assigned := acc.assigned ++ [(d.addr, d.current)]
      types := addSet acc.types d.current } := by
  simp [scanStep, hn, hc]

theorem scanStep_free (acc : Scan) (d : Device) (hn : d.hasNvidia = true)
    (hc : d.current = "0\n") :
    scanStep acc d = { acc with
      available := acc.available
        ++ [(d.addr, (scanCreatable acc.types
              ((pySplitlines d.creatable.toList).map String.mk)).2)]
      types := (scanCreatable acc.types
        ((pySplitlines d.creatable.toList).map String.mk)).1 } := by
  simp [scanStep, hn, hc]

/-- Comparison predicate for C8, following the amended claim's words: an entry
of the catalog is either the raw occupancy value of an occupied device with the
nvidia marker, or a nonempty non-header line (verbatim) of a free such device's
creatable-types file. -/
def catalogSpec (devs : List Device) (x : String) : Prop :=
  ∃ d ∈ devs, d.hasNvidia = true ∧
    ((¬ d.current = "0\n" ∧ x = d.current) ∨
     (d.current = "0\n" ∧
       x ∈ keptLines ((pySplitlines d.creatable.toList).map String.mk)))

theorem scan_types_mem (devs : List Device) : ∀ (acc : Scan) (x : String),
    x ∈ (devs.foldl scanStep acc).types ↔ x ∈ acc.types ∨ catalogSpec devs x := by
  induction devs with
  | nil =>
    intro acc x
    simp [catalogSpec]
  | cons d devs ih =>
    intro acc x
    rw [List.foldl_cons, ih]
    have hspec : catalogSpec (d :: devs) x
        ↔ (d.hasNvidia = true ∧
            ((¬ d.current = "0\n" ∧ x = d.current) ∨
             (d.current = "0\n" ∧
               x ∈ keptLines ((pySplitlines d.creatable.toList).map String.mk))))
          ∨ catalogSpec devs x := by
      simp [catalogSpec]
    rw [hspec]
    by_cases hn : d.hasNvidia = true
    · by_cases hc : d.current = "0\n"
      · rw [scanStep_free acc d hn hc]
        dsimp only
        rw [scanCreatable_fst_mem]
        simp only [hn, hc]
        tauto
      · rw [scanStep_occupied acc d hn hc]
        dsimp only
        rw [mem_addSet]
        simp only [hn, eq_self_iff_true, true_and]
        tauto
    · have hn2 : d.hasNvidia = false := by simpa using hn
      rw [scanStep_skip acc d hn2]
      simp only [hn2]
      tauto

theorem scan_available (devs : List Device) : ∀ acc : Scan,
    (devs.foldl scanStep acc).available
      = acc.available
        ++ (freeDevs devs).map
            (fun d => (d.addr,
              (keptLines ((pySplitlines d.creatable.toList).map String.mk)).map
                (fun l => pyStrip (String.mk (upToSep l.toList))))) := by
  induction devs with
  | nil =>
    intro acc
    simp [freeDevs]
  | cons d devs ih =>
    intro acc
    rw [List.foldl_cons, ih]
    by_cases hn : d.hasNvidia = true
    · by_cases hc : d.current = "0\n"
      · have hf : (d.hasNvidia && d.current == "0\n") = true := by simp [hn, hc]
        rw [scanStep_free acc d hn hc]
        dsimp only
        simp [freeDevs, hf, scanCreatable_snd, List.append_assoc]
      · have hf : (d.hasNvidia && d.current == "0\n") = false := by simp [hn, hc]
        rw [scanStep_occupied acc d hn hc]
        dsimp only
        simp [freeDevs, hf]
    · have hn2 : d.hasNvidia = false := by simpa using hn
      have hf : (d.hasNvidia && d.current == "0\n") = false := by simp [hn2]
      rw [scanStep_skip acc d hn2]
      simp [freeDevs, hf]

/-- C8: the claim as stated fails: for a free device whose creatable-types file
lists `64 : NVIDIA A16-16A`, the catalog entry is the whole description line
(and for an occupied device the raw occupancy value with its trailing newline),
not the bare type id recorded in the creatable set. -/
theorem c8_counterexample :
    (get_gpus [⟨"0000:01:00.0", true, "0\n", "ID : desc\n64 : NVIDIA A16-16A\n"⟩]).types
        = ["64 : NVIDIA A16-16A"] ∧
    (get_gpus [⟨"0000:01:00.0", true, "0\n", "ID : desc\n64 : NVIDIA A16-16A\n"⟩]).available
        = [("0000:01:00.0", ["64"])] ∧
    ¬ "64" ∈ (get_gpus [⟨"0000:01:00.0", true, "0\n", "ID : desc\n64 : NVIDIA A16-16A\n"⟩]).types ∧
    (get_gpus [⟨"0000:02:00.0", true, "64\n", ""⟩]).types = ["64\n"] := by
  exact ⟨by decide, by decide, by decide, by decide⟩

/-- C8 (amended): after a scan the catalog contains exactly, over the devices
with the nvidia marker: the raw occupancy value of each occupied device, and
each nonempty non-header line of each free device's creatable-types file,
verbatim; the free devices' creatable sets record the stripped first `" : "`
field of exactly those lines, in scan order. -/
theorem c8_catalog_contents (devs : List Device) :
    (∀ x, x ∈ (get_gpus devs).types ↔ catalogSpec devs x) ∧
    (get_gpus devs).available
      = (freeDevs devs).map
          (fun d => (d.addr,
            (keptLines ((pySplitlines d.creatable.toList).map String.mk)).map
              (fun l => pyStrip (String.mk (upToSep l.toList))))) := by
  constructor
  · intro x
    have h := scan_types_mem devs ⟨[], [], []⟩ x
    simpa [get_gpus] using h
  · have h := scan_available devs ⟨[], [], []⟩
    simpa [get_gpus] using h
